import Mathlib

/-!
Verification of the meter-core packet pipeline of ren-logs, shallowly embedded
from the Rust sources: the byte-stream framing loop of
meter-core/src/capture.rs (process_data_buffer), the flow-identification and
migration state machine of capture.rs (process_packet,
reset_server_identification), the envelope dispatch of
meter-core/src/packet_parser.rs (PacketParser::process_packet), and the
aggregate store of meter-core/src/data_manager.rs with the player model of
meter-core/src/models/user.rs.

Bytes are modelled as natural numbers; u32/u64 arithmetic that can overflow is
taken modulo 2^32 / 2^64 explicitly.  Wall-clock instants (chrono Utc::now())
are passed in as explicit natural-number arguments.  The f64 rate fields
(dps, dps_max, hps, hps_max, crit_rate, lucky_rate) are floating point and are
omitted from the embedding; no statement below concerns them.
-/

namespace RenLogs

/-! ## Byte-stream framing (capture.rs, process_data_buffer) -/

/-- Hard cap on a frame size: 10 MiB (capture.rs line 646). -/
def cap : Nat := 10 * 1024 * 1024

/-- Modulus of u32 arithmetic. -/
def U32 : Nat := 4294967296

/-- Modulus of u64 arithmetic. -/
def U64 : Nat := 18446744073709551616

/-- u32::from_be_bytes of the first four bytes of a buffer
(capture.rs lines 638-643); the source only evaluates it when the buffer
holds more than four bytes. -/
def readBe32 : List Nat → Nat
  | b0 :: b1 :: b2 :: b3 :: _ => ((b0 * 256 + b1) * 256 + b2) * 256 + b3
  | _ => 0

/-- u16::from_le_bytes of bytes 4 and 5 of an extracted frame
(capture.rs line 679). -/
def readOpcodeLe : List Nat → Nat
  | _ :: _ :: _ :: _ :: b4 :: b5 :: _ => b5 * 256 + b4
  | _ => 0

/-- A decoded message: little-endian opcode and body bytes, as sent on the
channel by process_data_buffer (capture.rs lines 679-680). -/
structure Msg where
  opcode : Nat
  body : List Nat
deriving DecidableEq

/-- The framing loop of process_data_buffer (capture.rs lines 637-716),
translated step for step.  The source loop is unbounded, so the embedding
takes a fuel argument bounding the number of iterations; every theorem below
supplies fuel at least the buffer length, which is enough for all the inputs
it feeds.  Returns the emitted messages in order, and the remaining buffer. -/
def processDataBuffer : Nat → List Nat → List Msg × List Nat
  | 0, buf => ([], buf)
  | fuel + 1, buf =>
    if buf.length ≤ 4 then ([], buf)
    else if cap < readBe32 buf then ([], [])
    else if buf.length < readBe32 buf then ([], buf)
    else if 6 ≤ (buf.take (readBe32 buf)).length then
      (⟨readOpcodeLe (buf.take (readBe32 buf)),
          (buf.take (readBe32 buf)).drop 6⟩ ::
        (processDataBuffer fuel (buf.drop (readBe32 buf))).1,
       (processDataBuffer fuel (buf.drop (readBe32 buf))).2)
    else processDataBuffer fuel (buf.drop (readBe32 buf))

/-- Delivering one reassembled payload chunk to the stream reassembler:
append it to the data buffer and run the framing loop
(capture.rs lines 583-598), accumulating the emitted messages. -/
def feedChunk (st : List Msg × List Nat) (c : List Nat) : List Msg × List Nat :=
  let buf := st.2 ++ c
  let r := processDataBuffer buf.length buf
  (st.1 ++ r.1, r.2)

/-- Deliver a list of chunks, in order, to an initially empty reassembler. -/
def decodeStream (cs : List (List Nat)) : List Msg × List Nat :=
  cs.foldl feedChunk ([], [])

/-- Big-endian four-byte encoding of a u32 value (spec side of the
round trip). -/
def be32 (n : Nat) : List Nat :=
  [n / 16777216 % 256, n / 65536 % 256, n / 256 % 256, n % 256]

/-- Total encoded size of a frame carrying a message: 4 size bytes, 2 opcode
bytes, then the body; the size field covers the whole frame. -/
def encLen (m : Msg) : Nat := 6 + m.body.length

/-- A well-formed frame: big-endian u32 size covering the whole frame, then
the little-endian u16 opcode, then the body. -/
def encodeFrame (m : Msg) : List Nat :=
  be32 (encLen m) ++ [m.opcode % 256, m.opcode / 256 % 256] ++ m.body

/-- Well-formedness of a frame: the size (at least 6 by construction) is
within the 10 MiB cap, and the opcode fits in a u16. -/
def WFrame (m : Msg) : Prop := encLen m ≤ cap ∧ m.opcode < 65536

instance (m : Msg) : Decidable (WFrame m) := by
  unfold WFrame; infer_instance

/-- Concatenation of the encodings of a list of frames. -/
def concatFrames : List Msg → List Nat
  | [] => []
  | m :: ms => encodeFrame m ++ concatFrames ms

/-- Concatenation of a list of chunks. -/
def flatChunks : List (List Nat) → List Nat
  | [] => []
  | c :: cs => c ++ flatChunks cs

/-! ## Player and enemy records (models/user.rs, models/mod.rs) -/

/-- DamageStats (user.rs lines 23-38); the f64 fields dps and dps_max are
omitted, see the header comment. -/
structure DamageStats where
  totalDamage : Nat
  normalDamage : Nat
  criticalDamage : Nat
  luckyDamage : Nat
  critLuckyDamage : Nat
  hpLessen : Nat
  normalCount : Nat
  criticalCount : Nat
  luckyCount : Nat
  totalCount : Nat
  timeRange : Option (Nat × Nat)
deriving DecidableEq

/-- HealingStats (user.rs lines 40-54); hps and hps_max omitted. -/
structure HealingStats where
  totalHealing : Nat
  normalHealing : Nat
  criticalHealing : Nat
  luckyHealing : Nat
  critLuckyHealing : Nat
  normalCount : Nat
  criticalCount : Nat
  luckyCount : Nat
  totalCount : Nat
  timeRange : Option (Nat × Nat)
deriving DecidableEq

/-- DamageBreakdown (user.rs lines 72-79). -/
structure DamageBreakdown where
  normal : Nat
  critical : Nat
  lucky : Nat
  critLucky : Nat
  total : Nat
deriving DecidableEq

/-- CountBreakdown (user.rs lines 81-87). -/
structure CountBreakdown where
  normal : Nat
  critical : Nat
  lucky : Nat
  total : Nat
deriving DecidableEq

/-- SkillStats (user.rs lines 56-70); crit_rate and lucky_rate are f64 and
omitted. -/
structure SkillStats where
  skillId : Nat
  displayName : String
  skillType : String
  element : String
  totalDamage : Nat
  totalCount : Nat
  critCount : Nat
  luckyCount : Nat
  damageBreakdown : DamageBreakdown
  countBreakdown : CountBreakdown
deriving DecidableEq

/-- User (user.rs lines 5-21), with Utc timestamps as naturals. -/
structure User where
  uid : Nat
  name : String
  profession : String
  subProfession : String
  fightPoint : Nat
  level : Nat
  hp : Nat
  maxHp : Nat
  damageStats : DamageStats
  healingStats : HealingStats
  takenDamage : Nat
  deadCount : Nat
  skillUsage : List (Nat × SkillStats)
  lastUpdate : Nat
deriving DecidableEq

/-- DamageStats::default (user.rs lines 110-128). -/
def DamageStats.zero : DamageStats :=
  ⟨0, 0, 0, 0, 0, 0, 0, 0, 0, 0, none⟩

/-- HealingStats::default (user.rs lines 130-147). -/
def HealingStats.zero : HealingStats :=
  ⟨0, 0, 0, 0, 0, 0, 0, 0, 0, none⟩

/-- DamageBreakdown::default (user.rs lines 447-457). -/
def DamageBreakdown.zero : DamageBreakdown := ⟨0, 0, 0, 0, 0⟩

/-- CountBreakdown::default (user.rs lines 459-468). -/
def CountBreakdown.zero : CountBreakdown := ⟨0, 0, 0, 0⟩

/-- User::new via User::default (user.rs lines 89-108, 150-155). -/
def User.new (now uid : Nat) : User :=
  { uid := uid
    name := ""
    profession := "未知"
    subProfession := ""
    fightPoint := 0
    level := 0
    hp := 0
    maxHp := 0
    damageStats := DamageStats.zero
    healingStats := HealingStats.zero
    takenDamage := 0
    deadCount := 0
    skillUsage := []
    lastUpdate := now }

/-- Association-list lookup keyed by a natural number, modelling HashMap get
with deterministic duplicate-free keys. -/
def alookup {α : Type} : Nat → List (Nat × α) → Option α
  | _, [] => none
  | k, (k2, v) :: rest => if k = k2 then some v else alookup k rest

/-- Association-list in-place value update at a key. -/
def aupdate {α : Type} (f : α → α) : Nat → List (Nat × α) → List (Nat × α)
  | _, [] => []
  | k, (k2, v) :: rest =>
    if k = k2 then (k2, f v) :: rest else (k2, v) :: aupdate f k rest

/-- The fresh SkillStats record inserted on first use of a skill
(user.rs lines 198-211 and 304-317). -/
def freshSkill (skillId : Nat) (skillType element : String) : SkillStats :=
  { skillId := skillId
    displayName := toString skillId
    skillType := skillType
    element := element
    totalDamage := 0
    totalCount := 0
    critCount := 0
    luckyCount := 0
    damageBreakdown := DamageBreakdown.zero
    countBreakdown := CountBreakdown.zero }

/-- The per-skill accumulation in User::add_damage and User::add_healing
(user.rs lines 214-259 and 320-365); the skill buckets use is_cause_lucky in
place of is_lucky. -/
def bumpSkill (s : SkillStats) (value : Nat) (isCrit isCauseLucky : Bool) :
    SkillStats :=
  let s := { s with
    totalDamage := (s.totalDamage + value) % U64
    totalCount := (s.totalCount + 1) % U32 }
  let s := if isCrit then { s with critCount := (s.critCount + 1) % U32 } else s
  let s :=
    if isCauseLucky then { s with luckyCount := (s.luckyCount + 1) % U32 } else s
  let db := s.damageBreakdown
  let db :=
    if isCrit && isCauseLucky then
      { db with critLucky := (db.critLucky + value) % U64 }
    else if isCrit then { db with critical := (db.critical + value) % U64 }
    else if isCauseLucky then { db with lucky := (db.lucky + value) % U64 }
    else { db with normal := (db.normal + value) % U64 }
  let db := { db with total := (db.total + value) % U64 }
  let cb := s.countBreakdown
  let cb := if isCrit then { cb with critical := (cb.critical + 1) % U32 } else cb
  let cb :=
    if isCauseLucky then { cb with lucky := (cb.lucky + 1) % U32 } else cb
  let cb :=
    if !isCrit && !isCauseLucky then { cb with normal := (cb.normal + 1) % U32 }
    else cb
  let cb := { cb with total := (cb.total + 1) % U32 }
  { s with damageBreakdown := db, countBreakdown := cb }

/-- Insert-if-absent then accumulate, shared by the skill-usage updates of
User::add_damage and User::add_healing (user.rs lines 196-259, 302-365). -/
def updateSkillUsage (su : List (Nat × SkillStats)) (skillKey skillId : Nat)
    (skillType element : String) (value : Nat) (isCrit isCauseLucky : Bool) :
    List (Nat × SkillStats) :=
  let su :=
    if (alookup skillKey su).isNone then
      su ++ [(skillKey, freshSkill skillId skillType element)]
    else su
  aupdate (fun s => bumpSkill s value isCrit isCauseLucky) skillKey su

/-- User::add_damage (user.rs lines 157-262). -/
def User.addDamage (u : User) (now skillId : Nat) (element : String)
    (damage : Nat) (isCrit isLucky isCauseLucky : Bool) (hpLessen : Nat) :
    User :=
  let ds := u.damageStats
  let ds :=
    if isCrit && isLucky then
      { ds with critLuckyDamage := (ds.critLuckyDamage + damage) % U64 }
    else if isCrit then
      { ds with criticalDamage := (ds.criticalDamage + damage) % U64 }
    else if isLucky then
      { ds with luckyDamage := (ds.luckyDamage + damage) % U64 }
    else { ds with normalDamage := (ds.normalDamage + damage) % U64 }
  let ds := { ds with
    totalDamage := (ds.totalDamage + damage) % U64
    hpLessen := (ds.hpLessen + hpLessen) % U64 }
  let ds :=
    if isCrit then { ds with criticalCount := (ds.criticalCount + 1) % U32 }
    else ds
  let ds :=
    if isLucky then { ds with luckyCount := (ds.luckyCount + 1) % U32 } else ds
  let ds :=
    if !isCrit && !isLucky then
      { ds with normalCount := (ds.normalCount + 1) % U32 }
    else ds
  let ds := { ds with totalCount := (ds.totalCount + 1) % U32 }
  let ds := { ds with
    timeRange := match ds.timeRange with
      | some (start, _) => some (start, now)
      | none => some (now, now) }
  { u with
    damageStats := ds
    skillUsage :=
      updateSkillUsage u.skillUsage skillId skillId "damage" element damage
        isCrit isCauseLucky
    lastUpdate := now }

/-- User::add_healing (user.rs lines 264-368); the skill key is offset by
1000000000 to discriminate healing skills. -/
def User.addHealing (u : User) (now skillId : Nat) (element : String)
    (healing : Nat) (isCrit isLucky isCauseLucky : Bool) : User :=
  let skillKey := skillId + 1000000000
  let hs := u.healingStats
  let hs :=
    if isCrit && isLucky then
      { hs with critLuckyHealing := (hs.critLuckyHealing + healing) % U64 }
    else if isCrit then
      { hs with criticalHealing := (hs.criticalHealing + healing) % U64 }
    else if isLucky then
      { hs with luckyHealing := (hs.luckyHealing + healing) % U64 }
    else { hs with normalHealing := (hs.normalHealing + healing) % U64 }
  let hs := { hs with totalHealing := (hs.totalHealing + healing) % U64 }
  let hs :=
    if isCrit then { hs with criticalCount := (hs.criticalCount + 1) % U32 }
    else hs
  let hs :=
    if isLucky then { hs with luckyCount := (hs.luckyCount + 1) % U32 } else hs
  let hs :=
    if !isCrit && !isLucky then
      { hs with normalCount := (hs.normalCount + 1) % U32 }
    else hs
  let hs := { hs with totalCount := (hs.totalCount + 1) % U32 }
  let hs := { hs with
    timeRange := match hs.timeRange with
      | some (start, _) => some (start, now)
      | none => some (now, now) }
  { u with
    healingStats := hs
    skillUsage :=
      updateSkillUsage u.skillUsage skillKey skillId "healing" element healing
        isCrit isCauseLucky
    lastUpdate := now }

/-- User::add_taken_damage (user.rs lines 370-375); taken_damage and
dead_count are u32. -/
def User.addTakenDamage (u : User) (damage : Nat) (isDead : Bool) : User :=
  { u with
    takenDamage := (u.takenDamage + damage) % U32
    deadCount := if isDead then (u.deadCount + 1) % U32 else u.deadCount }

/-- User::reset (user.rs lines 409-416): zeroes damage, healing, taken
damage, skill usage and fight point; does not touch uid, name, profession,
sub_profession, level, hp, max_hp or dead_count. -/
def User.reset (u : User) (now : Nat) : User :=
  { u with
    damageStats := DamageStats.zero
    healingStats := HealingStats.zero
    takenDamage := 0
    skillUsage := []
    fightPoint := 0
    lastUpdate := now }

/-- User::set_name (user.rs lines 418-420). -/
def User.setName (u : User) (name : String) : User := { u with name := name }

/-- User::set_profession (user.rs lines 422-427): clears the sub-profession
when the profession changes. -/
def User.setProfession (u : User) (profession : String) : User :=
  if profession ≠ u.profession then
    { u with profession := profession, subProfession := "" }
  else { u with profession := profession }

/-- User::set_sub_profession (user.rs lines 429-431). -/
def User.setSubProfession (u : User) (subProfession : String) : User :=
  { u with subProfession := subProfession }

/-- User::set_fight_point (user.rs lines 433-435). -/
def User.setFightPoint (u : User) (fightPoint : Nat) : User :=
  { u with fightPoint := fightPoint }

/-- User::set_attr (user.rs lines 437-444). -/
def User.setAttr (u : User) (key : String) (value : Nat) : User :=
  if key = "hp" then { u with hp := value }
  else if key = "max_hp" then { u with maxHp := value }
  else if key = "level" then { u with level := value }
  else u

/-- Enemy (models/mod.rs lines 14-20). -/
structure Enemy where
  id : Nat
  name : String
  hp : Nat
  maxHp : Nat
  lastUpdate : Nat
deriving DecidableEq

/-- Enemy::new (models/mod.rs lines 23-31). -/
def Enemy.new (now id : Nat) : Enemy :=
  { id := id, name := "Enemy_" ++ toString id, hp := 0, maxHp := 0
    lastUpdate := now }

/-- Enemy::set_name (models/mod.rs lines 33-36). -/
def Enemy.setName (e : Enemy) (now : Nat) (name : String) : Enemy :=
  { e with name := name, lastUpdate := now }

/-- Enemy::set_hp (models/mod.rs lines 38-41). -/
def Enemy.setHp (e : Enemy) (now hp : Nat) : Enemy :=
  { e with hp := hp, lastUpdate := now }

/-- Enemy::set_max_hp (models/mod.rs lines 43-46). -/
def Enemy.setMaxHp (e : Enemy) (now maxHp : Nat) : Enemy :=
  { e with maxHp := maxHp, lastUpdate := now }

/-! ## The aggregate store (data_manager.rs) -/

/-- GlobalSettings (data_manager.rs lines 34-39). -/
structure GlobalSettings where
  autoClearOnServerChange : Bool
  autoClearOnTimeout : Bool
  onlyRecordEliteDummy : Bool
deriving DecidableEq

/-- The sub-profession lookup table get_sub_profession_by_skill_id
(models/skill.rs lines 76-97). -/
def getSubProfessionBySkillId (skillId : Nat) : Option String :=
  if skillId = 1241 then some "射线"
  else if skillId = 2307 ∨ skillId = 2361 ∨ skillId = 55302 then some "协奏"
  else if skillId = 20301 then some "愈合"
  else if skillId = 1518 ∨ skillId = 1541 ∨ skillId = 21402 then some "惩戒"
  else if skillId = 2306 then some "狂音"
  else if skillId = 120901 ∨ skillId = 120902 then some "冰矛"
  else if skillId = 1714 ∨ skillId = 1734 then some "居合"
  else if skillId = 44701 ∨ skillId = 179906 then some "月刃"
  else if skillId = 220112 ∨ skillId = 2203622 then some "鹰弓"
  else if skillId = 2292 ∨ skillId = 1700820 ∨ skillId = 1700825 ∨
      skillId = 1700827 then some "狼弓"
  else if skillId = 1419 then some "空枪"
  else if skillId = 1405 ∨ skillId = 1418 then some "重装"
  else if skillId = 2405 then some "防盾"
  else if skillId = 2406 then some "光盾"
  else if skillId = 199902 then some "岩盾"
  else if skillId = 1930 ∨ skillId = 1931 ∨ skillId = 1934 ∨ skillId = 1935
    then some "格挡"
  else none

/-- The DataManager state (data_manager.rs lines 21-32): the user and enemy
maps, settings, the pause flag and the last-log time. -/
structure Store where
  users : List (Nat × User)
  enemies : List (Nat × Enemy)
  settings : GlobalSettings
  isPaused : Bool
  lastLogTime : Nat
deriving DecidableEq

/-- DataManager::get_or_create_user (data_manager.rs lines 160-165). -/
def Store.getOrCreateUser (s : Store) (now uid : Nat) : Store :=
  match alookup uid s.users with
  | some _ => s
  | none => { s with users := s.users ++ [(uid, User.new now uid)] }

/-- DataManager::get_or_create_enemy (data_manager.rs lines 167-172). -/
def Store.getOrCreateEnemy (s : Store) (now id : Nat) : Store :=
  match alookup id s.enemies with
  | some _ => s
  | none => { s with enemies := s.enemies ++ [(id, Enemy.new now id)] }

/-- Apply the sub-profession inference after a damage or healing record
(data_manager.rs lines 199-202, 232-235). -/
def applySubProfession (skillId : Nat) (u : User) : User :=
  match getSubProfessionBySkillId skillId with
  | some sp => u.setSubProfession sp
  | none => u

/-- DataManager::add_damage (data_manager.rs lines 174-206): bails out when
paused or when only-record-elite-dummy filters the target, otherwise creates
the attacker record if needed, accumulates, infers the sub-profession and
stamps the last-log time. -/
def Store.addDamage (s : Store) (now uid skillId : Nat) (element : String)
    (damage : Nat) (isCrit isLucky isCauseLucky : Bool)
    (hpLessen targetUid : Nat) : Store :=
  if s.isPaused then s
  else if s.settings.onlyRecordEliteDummy ∧ targetUid ≠ 75 then s
  else
    let s := s.getOrCreateUser now uid
    let s := { s with
      users := aupdate
        (fun u =>
          applySubProfession skillId
            (u.addDamage now skillId element damage isCrit isLucky isCauseLucky
              hpLessen))
        uid s.users }
    { s with lastLogTime := now }

/-- DataManager::add_healing (data_manager.rs lines 208-239): bails out when
paused or when the source uid is 0. -/
def Store.addHealing (s : Store) (now uid skillId : Nat) (element : String)
    (healing : Nat) (isCrit isLucky isCauseLucky : Bool) : Store :=
  if s.isPaused then s
  else if uid = 0 then s
  else
    let s := s.getOrCreateUser now uid
    let s := { s with
      users := aupdate
        (fun u =>
          applySubProfession skillId
            (u.addHealing now skillId element healing isCrit isLucky
              isCauseLucky))
        uid s.users }
    { s with lastLogTime := now }

/-- DataManager::add_taken_damage (data_manager.rs lines 241-253). -/
def Store.addTakenDamage (s : Store) (now uid damage : Nat) (isDead : Bool) :
    Store :=
  if s.isPaused then s
  else
    let s := s.getOrCreateUser now uid
    let s :=
      { s with
        users := aupdate (fun u => u.addTakenDamage damage isDead) uid s.users }
    { s with lastLogTime := now }

/-- DataManager::set_user_name (data_manager.rs lines 255-258); note there is
no pause check in the source. -/
def Store.setUserName (s : Store) (now uid : Nat) (name : String) : Store :=
  let s := s.getOrCreateUser now uid
  { s with users := aupdate (fun u => u.setName name) uid s.users }

/-- DataManager::set_user_profession (data_manager.rs lines 260-263). -/
def Store.setUserProfession (s : Store) (now uid : Nat) (p : String) : Store :=
  let s := s.getOrCreateUser now uid
  { s with users := aupdate (fun u => u.setProfession p) uid s.users }

/-- DataManager::set_user_fight_point (data_manager.rs lines 265-268). -/
def Store.setUserFightPoint (s : Store) (now uid fp : Nat) : Store :=
  let s := s.getOrCreateUser now uid
  { s with users := aupdate (fun u => u.setFightPoint fp) uid s.users }

/-- DataManager::set_user_attr (data_manager.rs lines 270-273). -/
def Store.setUserAttr (s : Store) (now uid : Nat) (key : String) (value : Nat) :
    Store :=
  let s := s.getOrCreateUser now uid
  { s with users := aupdate (fun u => u.setAttr key value) uid s.users }

/-- DataManager::set_enemy_name (data_manager.rs lines 275-278). -/
def Store.setEnemyName (s : Store) (now id : Nat) (name : String) : Store :=
  let s := s.getOrCreateEnemy now id
  { s with enemies := aupdate (fun e => e.setName now name) id s.enemies }

/-- DataManager::set_enemy_hp (data_manager.rs lines 280-283). -/
def Store.setEnemyHp (s : Store) (now id hp : Nat) : Store :=
  let s := s.getOrCreateEnemy now id
  { s with enemies := aupdate (fun e => e.setHp now hp) id s.enemies }

/-- DataManager::set_enemy_max_hp (data_manager.rs lines 285-288). -/
def Store.setEnemyMaxHp (s : Store) (now id maxHp : Nat) : Store :=
  let s := s.getOrCreateEnemy now id
  { s with enemies := aupdate (fun e => e.setMaxHp now maxHp) id s.enemies }

/-- DataManager::clear_all (data_manager.rs lines 370-378): resets every user
in place and empties the enemies map. -/
def Store.clearAll (s : Store) (now : Nat) : Store :=
  { s with
    users := s.users.map (fun p => (p.1, p.2.reset now))
    enemies := [] }

/-- DataManager::pause (data_manager.rs lines 380-382). -/
def Store.pause (s : Store) (paused : Bool) : Store :=
  { s with isPaused := paused }

/-- The per-user projection served by get_all_users_data
(data_manager.rs lines 302-349), restricted to the non-floating-point
fields. -/
structure UserView where
  name : String
  profession : String
  normalDamage : Nat
  criticalDamage : Nat
  luckyDamage : Nat
  critLuckyDamage : Nat
  totalDamage : Nat
  normalCount : Nat
  criticalCount : Nat
  luckyCount : Nat
  totalCount : Nat
  normalHealing : Nat
  criticalHealing : Nat
  luckyHealing : Nat
  critLuckyHealing : Nat
  totalHealing : Nat
  takenDamage : Nat
  fightPoint : Nat
  hp : Nat
  maxHp : Nat
  deadCount : Nat
deriving DecidableEq

/-- The fields of one user's snapshot entry (data_manager.rs lines 309-343);
the reported profession is the concatenation of profession and
sub-profession. -/
def User.view (u : User) : UserView :=
  { name := u.name
    profession := u.profession ++ u.subProfession
    normalDamage := u.damageStats.normalDamage
    criticalDamage := u.damageStats.criticalDamage
    luckyDamage := u.damageStats.luckyDamage
    critLuckyDamage := u.damageStats.critLuckyDamage
    totalDamage := u.damageStats.totalDamage
    normalCount := u.damageStats.normalCount
    criticalCount := u.damageStats.criticalCount
    luckyCount := u.damageStats.luckyCount
    totalCount := u.damageStats.totalCount
    normalHealing := u.healingStats.normalHealing
    criticalHealing := u.healingStats.criticalHealing
    luckyHealing := u.healingStats.luckyHealing
    critLuckyHealing := u.healingStats.critLuckyHealing
    totalHealing := u.healingStats.totalHealing
    takenDamage := u.takenDamage
    fightPoint := u.fightPoint
    hp := u.hp
    maxHp := u.maxHp
    deadCount := u.deadCount }

/-- The per-enemy projection served by get_all_enemies_data
(data_manager.rs lines 351-368). -/
structure EnemyView where
  name : String
  hp : Nat
  maxHp : Nat
deriving DecidableEq

/-- The fields of one enemy's snapshot entry (data_manager.rs lines 358-362). -/
def Enemy.view (e : Enemy) : EnemyView :=
  { name := e.name, hp := e.hp, maxHp := e.maxHp }

/-- Snapshot of all users, as observed by the HTTP/push surface. -/
def Store.snapshotUsers (s : Store) : List (Nat × UserView) :=
  s.users.map (fun p => (p.1, p.2.view))

/-- Snapshot of all enemies. -/
def Store.snapshotEnemies (s : Store) : List (Nat × EnemyView) :=
  s.enemies.map (fun p => (p.1, p.2.view))

/-! ## Flow identification and migration (capture.rs, process_packet) -/

/-- A directional endpoint pair; the source keeps it as the formatted string
srcIp:srcPort -> dstIp:dstPort, whose equality coincides with equality of the
four components. -/
structure FlowId where
  srcIp : Nat
  srcPort : Nat
  dstIp : Nat
  dstPort : Nat
deriving DecidableEq

/-- The reverse direction of an endpoint pair (capture.rs line 487). -/
def FlowId.reverse (f : FlowId) : FlowId :=
  ⟨f.dstIp, f.dstPort, f.srcIp, f.srcPort⟩

/-- The six signature bytes checked by the small-packet identifier
(capture.rs line 247): 0x00 0x63 0x33 0x53 0x42 0x00. -/
def smallSig : List Nat := [0, 99, 51, 83, 66, 0]

/-- The frame scan of try_identify_server_by_small_packet
(capture.rs lines 229-274): walk len-prefixed frames and look for the
signature at offset 5 of a frame body of at least 11 bytes.  The source loop
is bounded because each iteration consumes at least 5 bytes; fuel at least
the data length is always enough. -/
def smallPacketScan : Nat → List Nat → Bool
  | 0, _ => false
  | fuel + 1, data =>
    if data.length < 4 then false
    else
      let packetLen := readBe32 data
      if packetLen = 0 ∨ data.length < 4 + packetLen then false
      else
        let pkt := (data.drop 4).take packetLen
        if 11 ≤ pkt.length ∧ (pkt.drop 5).take 6 = smallSig then true
        else smallPacketScan fuel (data.drop (4 + packetLen))

/-- Byte 4 of a payload (capture.rs line 215); only evaluated on payloads of
more than 10 bytes. -/
def payloadByte4 : List Nat → Nat
  | _ :: _ :: _ :: _ :: b4 :: _ => b4
  | _ => 0

/-- The first ten bytes of the login-response signature
(capture.rs lines 293-296). -/
def loginSig1 : List Nat := [0, 0, 0, 98, 0, 3, 0, 0, 0, 1]

/-- Bytes 14-19 of the login-response signature (capture.rs lines 294-295):
0x00 0x00 0x00 0x00 0x0a 0x4e. -/
def loginSig2 : List Nat := [0, 0, 0, 0, 10, 78]

/-- The whole capture-module state: the lazy-static globals of capture.rs
(CURRENT_SERVER, SERVER_IDENTIFIED, MISMATCHED_PACKETS, TCP_CACHE,
TCP_NEXT_SEQ, DATA_BUFFER), the stream of messages sent on the channel so
far, and the aggregate store reachable from the process. -/
structure CapState where
  currentServer : Option FlowId
  identified : Bool
  mismatched : Nat
  tcpCache : List (Nat × List Nat)
  tcpNextSeq : Int
  dataBuffer : List Nat
  emitted : List Msg
  store : Store
deriving DecidableEq

/-- clear_data_on_server_change (capture.rs lines 374-377): the source
function body is empty, so the transition is the identity; in particular it
never touches the aggregate store. -/
def clearDataOnServerChange (st : CapState) : CapState := st

/-- The state change on successful identification (capture.rs lines 258-267
and 316-325): record the pair, set the identified flag, clear the TCP cache,
reset the next-sequence marker, then call the (empty)
clear_data_on_server_change. -/
def identifyServer (st : CapState) (flow : FlowId) : CapState :=
  clearDataOnServerChange
    { st with
      currentServer := some flow
      identified := true
      tcpCache := []
      tcpNextSeq := -1 }

/-- try_identify_server_by_small_packet (capture.rs lines 208-278). -/
def tryIdentifySmall (st : CapState) (payload : List Nat) (flow : FlowId) :
    CapState :=
  if payload.length ≤ 10 then st
  else if payloadByte4 payload ≠ 0 then st
  else
    let data := payload.drop 10
    if data = [] then st
    else if smallPacketScan data.length data then
      if st.currentServer ≠ some flow then identifyServer st flow else st
    else st

/-- try_identify_server_by_login_response (capture.rs lines 281-334). -/
def tryIdentifyLogin (st : CapState) (payload : List Nat) (flow : FlowId) :
    CapState :=
  if payload.length ≠ 98 then st
  else if payload.take 10 = loginSig1 ∧ (payload.drop 14).take 6 = loginSig2
    then
    if st.currentServer ≠ some flow then identifyServer st flow else st
  else st

/-- reset_server_identification (capture.rs lines 729-748): drop the
identified flag, clear the recorded server, zero the mismatch counter, clear
the TCP cache, reset the next-sequence marker, and call the (empty)
clear_data_on_server_change.  Note that DATA_BUFFER is not touched by the
source. -/
def resetServerIdentification (st : CapState) : CapState :=
  clearDataOnServerChange
    { st with
      identified := false
      currentServer := none
      mismatched := 0
      tcpCache := []
      tcpNextSeq := -1 }

/-- Ordered insert with key replacement, modelling BTreeMap::insert on the
TCP cache keyed by sequence number. -/
def cacheInsert : List (Nat × List Nat) → Nat → List Nat →
    List (Nat × List Nat)
  | [], seq, pl => [(seq, pl)]
  | (s, p) :: rest, seq, pl =>
    if seq < s then (seq, pl) :: (s, p) :: rest
    else if seq = s then (seq, pl) :: rest
    else (s, p) :: cacheInsert rest seq pl

/-- Drain the TCP cache in key order (capture.rs lines 567-600): for each
cached payload, append it to the data buffer and run the framing loop,
sending the produced messages; every entry is removed. -/
def drainCache (st : CapState) : CapState :=
  let r := st.tcpCache.foldl
    (fun (acc : List Nat × List Msg) e =>
      let buf := acc.1 ++ e.2
      let pr := processDataBuffer buf.length buf
      (pr.2, acc.2 ++ pr.1))
    (st.dataBuffer, [])
  { st with tcpCache := [], dataBuffer := r.1, emitted := st.emitted ++ r.2 }

/-- The data path for a packet of the identified server
(capture.rs lines 559-606): cache the payload under its sequence number and
drain the cache. -/
def processServerPacket (st : CapState) (payload : List Nat) (seqNo : Nat) :
    CapState :=
  drainCache { st with tcpCache := cacheInsert st.tcpCache seqNo payload }

/-- One step of process_packet (capture.rs lines 380-607) after the IP/TCP
headers have been parsed into the packet's endpoint pair, payload and
sequence number.  Mirrors the branch structure of the source: identification
attempts while unidentified; the mismatch counter, five-packet migration
threshold and reverse-direction reset while identified; the data path for
accepted packets. -/
def processPacket (st : CapState) (flow : FlowId) (payload : List Nat)
    (seqNo : Nat) : CapState :=
  if st.currentServer ≠ some flow then
    if st.identified = false then
      let st1 := tryIdentifySmall st payload flow
      let st2 := tryIdentifyLogin st1 payload flow
      if st2.currentServer ≠ some flow then st2
      else processServerPacket st2 payload seqNo
    else
      if st.currentServer ≠ some flow.reverse then
        let m := (st.mismatched + 1) % U32
        if 5 ≤ m then resetServerIdentification { st with mismatched := m }
        else { st with mismatched := m }
      else processServerPacket { st with mismatched := 0 } payload seqNo
  else processServerPacket st payload seqNo

/-- Run a sequence of parsed packets through process_packet. -/
def runPackets (st : CapState) (ps : List (FlowId × List Nat × Nat)) :
    CapState :=
  ps.foldl (fun s p => processPacket s p.1 p.2.1 p.2.2) st

/-! ## Envelope dispatch (packet_parser.rs, PacketParser::process_packet) -/

/-- u16::from_be_bytes of bytes 4 and 5 of a frame: the packet type read by
BinaryReader::read_u16_be after the four size bytes
(packet_parser.rs lines 229-231, 829-833). -/
def readU16BeAt4 : List Nat → Nat
  | _ :: _ :: _ :: _ :: b4 :: b5 :: _ => b4 * 256 + b5
  | _ => 0

/-- The observable effect of one dispatch of PacketParser::process_packet:
the payload handed to process_notify_message.  The notify handlers decode
protobuf payloads into store updates; no claim below depends on their
internals, so the dispatch itself is the recorded event. -/
inductive ParseOut where
  | notifyDispatch (payload : List Nat) : ParseOut
deriving DecidableEq

/-- PacketParser::process_packet (packet_parser.rs lines 220-269).  The zstd
decompressor is passed in as an abstract function (none modelling a decode
error).  Except.error models a Rust panic: BinaryReader::read_u32_be slices
data[position..position+4] and panics when position + 4 exceeds the data
length (packet_parser.rs lines 817-821).  In the FrameDown arm the reader
position is already data.length, because read_remaining (line 235, lines
841-845) consumed the rest of the input before the match. -/
def processPacketEnvelope (zstd : List Nat → Option (List Nat)) :
    Nat → List Nat → Except Unit (List ParseOut)
  | fuel, data =>
    if data.length < 6 then .ok []
    else
      let packetType := readU16BeAt4 data
      let isCompressed := packetType / 32768 % 2 = 1
      let msgTypeId := packetType % 32768
      let payloadO := if isCompressed then zstd (data.drop 6)
        else some (data.drop 6)
      match payloadO with
      | none => .ok []
      | some payload =>
        if msgTypeId = 2 then .ok [.notifyDispatch payload]
        else if msgTypeId = 3 then .ok []
        else if msgTypeId = 6 then
          if data.length + 4 ≤ data.length then
            match fuel with
            | 0 => .error ()
            | fuel' + 1 =>
              if payload ≠ [] then processPacketEnvelope zstd fuel' payload
              else .ok []
          else .error ()
        else .ok []

/-! ## Call sequences and concrete fixtures used in the statements -/

/-- The argument record of one User::add_damage call. -/
structure DmgCall where
  now : Nat
  skillId : Nat
  element : String
  damage : Nat
  isCrit : Bool
  isLucky : Bool
  isCauseLucky : Bool
  hpLessen : Nat
deriving DecidableEq

/-- Apply a sequence of add_damage calls to a player record. -/
def applyDamageCalls (u : User) (cs : List DmgCall) : User :=
  cs.foldl
    (fun u c =>
      u.addDamage c.now c.skillId c.element c.damage c.isCrit c.isLucky
        c.isCauseLucky c.hpLessen)
    u

/-- Total damage value across a call sequence. -/
def callsSum (cs : List DmgCall) : Nat := (cs.map (fun c => c.damage)).sum

/-- Sum of the four damage value buckets. -/
def sumBuckets (ds : DamageStats) : Nat :=
  ds.normalDamage + ds.criticalDamage + ds.luckyDamage + ds.critLuckyDamage

/-- Number of calls flagged both critical and lucky. -/
def countBoth (cs : List DmgCall) : Nat :=
  cs.countP (fun c => c.isCrit && c.isLucky)

/-- Number of calls flagged critical. -/
def countCrit (cs : List DmgCall) : Nat := cs.countP (fun c => c.isCrit)

/-- Number of calls flagged lucky. -/
def countLucky (cs : List DmgCall) : Nat := cs.countP (fun c => c.isLucky)

/-- Number of calls flagged neither critical nor lucky. -/
def countNeither (cs : List DmgCall) : Nat :=
  cs.countP (fun c => !c.isCrit && !c.isLucky)

/-- Settings with auto-clear-on-server-change enabled (the default,
data_manager.rs lines 41-48). -/
def testSettings : GlobalSettings :=
  { autoClearOnServerChange := true
    autoClearOnTimeout := false
    onlyRecordEliteDummy := false }

/-- An empty, unpaused store with the default settings. -/
def emptyStore : Store :=
  { users := [], enemies := [], settings := testSettings, isPaused := false
    lastLogTime := 0 }

/-- A store holding one recorded critical hit of 5000 by player 7 with skill
1241, built through the real add_damage entry point. -/
def storeWithData : Store :=
  emptyStore.addDamage 10 7 1241 "fire" 5000 true false false 100 64

/-- A concrete identified endpoint pair. -/
def P0 : FlowId := ⟨1, 1, 2, 2⟩

/-- A concrete endpoint pair matching neither P0 nor its reverse. -/
def Q0 : FlowId := ⟨3, 3, 4, 4⟩

/-- A concrete identified capture state with zero mismatches. -/
def ceState : CapState :=
  { currentServer := some P0, identified := true, mismatched := 0
    tcpCache := [], tcpNextSeq := -1, dataBuffer := [], emitted := []
    store := emptyStore }

/-- Four packets from the wrong pair, one packet exactly matching the
identified pair, in that order. -/
def cePkts5 : List (FlowId × List Nat × Nat) :=
  [(Q0, [0], 1), (Q0, [0], 2), (Q0, [0], 3), (Q0, [0], 4), (P0, [0], 5)]

/-- A concrete identified capture state with pending stream-buffer bytes, a
cached TCP segment, a nonzero next-sequence marker, recorded statistics in
the store, and auto-clear-on-server-change enabled. -/
def c3State : CapState :=
  { currentServer := some P0, identified := true, mismatched := 0
    tcpCache := [(1, [5])], tcpNextSeq := 42, dataBuffer := [9, 9, 9]
    emitted := [], store := storeWithData }

/-- Five consecutive packets from the wrong pair. -/
def c3Pkts : List (FlowId × List Nat × Nat) :=
  [(Q0, [0], 1), (Q0, [0], 2), (Q0, [0], 3), (Q0, [0], 4), (Q0, [0], 5)]

/-- A paused store holding one fresh player with uid 7. -/
def pausedStore : Store :=
  { users := [(7, User.new 0 7)], enemies := [], settings := testSettings
    isPaused := true, lastLogTime := 0 }

/-- A store holding one enemy with id 5. -/
def enemyStore : Store :=
  { users := [], enemies := [(5, Enemy.new 0 5)], settings := testSettings
    isPaused := false, lastLogTime := 0 }

/-- One damage call flagged both critical and lucky. -/
def bothCall : DmgCall :=
  { now := 5, skillId := 100, element := "fire", damage := 10, isCrit := true
    isLucky := true, isCauseLucky := false, hpLessen := 0 }

/-- A twelve-byte FrameDown frame: size 12, opcode 6, a four-byte server
sequence id and two further body bytes. -/
def frameDownInput : List Nat := [0, 0, 0, 12, 0, 6, 0, 0, 0, 1, 170, 187]

/-! ## Framing lemmas -/

theorem processDataBuffer_stall (fuel : Nat) (b : List Nat)
    (h : b.length ≤ 4 ∨ (¬ cap < readBe32 b ∧ b.length < readBe32 b)) :
    processDataBuffer fuel b = ([], b) := by
  cases fuel with
  | zero => rfl
  | succ f =>
    rcases h with h | ⟨h1, h2⟩
    · simp [processDataBuffer, h]
    · by_cases h4 : b.length ≤ 4
      · simp [processDataBuffer, h4]
      · simp [processDataBuffer, h4, h1, h2]

theorem processDataBuffer_overflow (fuel : Nat) (b : List Nat)
    (h4 : ¬ b.length ≤ 4) (hc : cap < readBe32 b) :
    processDataBuffer (fuel + 1) b = ([], []) := by
  simp [processDataBuffer, h4, hc]

theorem readBe32_append (b t : List Nat) (h : 4 ≤ b.length) :
    readBe32 (b ++ t) = readBe32 b := by
  match b with
  | b0 :: b1 :: b2 :: b3 :: bs => rfl
  | [] => simp at h
  | [b0] => simp at h
  | [b0, b1] => simp at h
  | [b0, b1, b2] => simp at h

theorem be32_readBe32 (n : Nat) (t : List Nat) (h : n < 4294967296) :
    readBe32 (be32 n ++ t) = n := by
  simp only [be32, List.cons_append, List.nil_append, readBe32]
  omega

theorem encodeFrame_length (m : Msg) : (encodeFrame m).length = encLen m := by
  simp [encodeFrame, be32, encLen]
  omega

theorem readBe32_encodeFrame (m : Msg) (t : List Nat)
    (h : encLen m < 4294967296) :
    readBe32 (encodeFrame m ++ t) = encLen m := by
  have e : encodeFrame m ++ t
      = be32 (encLen m) ++
        ([m.opcode % 256, m.opcode / 256 % 256] ++ m.body ++ t) := by
    simp [encodeFrame]
  rw [e, be32_readBe32 _ _ h]

theorem readOpcodeLe_encodeFrame (m : Msg) (h : m.opcode < 65536) :
    readOpcodeLe (encodeFrame m) = m.opcode := by
  simp only [encodeFrame, be32, List.cons_append, List.nil_append, readOpcodeLe]
  omega

theorem encodeFrame_drop6 (m : Msg) : (encodeFrame m).drop 6 = m.body := by
  simp [encodeFrame, be32]

theorem splitAppend {α : Type} (x b t s : List α) (h : b ++ t = x ++ s)
    (hl : x.length ≤ b.length) :
    b = x ++ b.drop x.length ∧ b.drop x.length ++ t = s := by
  have htake : b.take x.length = x := by
    have h1 : (b ++ t).take x.length = b.take x.length := by
      rw [List.take_append_eq_append_take]
      have : x.length - b.length = 0 := by omega
      simp [this]
    have h2 : (x ++ s).take x.length = x := by
      rw [List.take_append_eq_append_take]
      simp
    rw [h] at h1
    rw [h2] at h1
    exact h1.symm
  constructor
  · conv_lhs => rw [← List.take_append_drop x.length b]
    rw [htake]
  · have h1 : (b ++ t).drop x.length = b.drop x.length ++ t := by
      rw [List.drop_append_eq_append_drop]
      have : x.length - b.length = 0 := by omega
      simp [this]
    have h2 : (x ++ s).drop x.length = s := by
      rw [List.drop_append_eq_append_drop]
      simp
    rw [h] at h1
    rw [h2] at h1
    exact h1.symm

theorem processDataBuffer_cons (f : Nat) (g : Msg) (b2 : List Nat)
    (hwf : WFrame g) :
    processDataBuffer (f + 1) (encodeFrame g ++ b2)
      = (g :: (processDataBuffer f b2).1, (processDataBuffer f b2).2) := by
  have hlen : (encodeFrame g ++ b2).length = encLen g + b2.length := by
    simp [encodeFrame_length]
  have h6 : 6 ≤ encLen g := by simp [encLen]
  have hread : readBe32 (encodeFrame g ++ b2) = encLen g :=
    readBe32_encodeFrame g b2 (lt_of_le_of_lt hwf.1 (by norm_num [cap]))
  have htake : (encodeFrame g ++ b2).take (encLen g) = encodeFrame g := by
    rw [← encodeFrame_length g]
    simp
  have hdrop : (encodeFrame g ++ b2).drop (encLen g) = b2 := by
    rw [← encodeFrame_length g]
    simp
  have h4 : ¬ (encodeFrame g ++ b2).length ≤ 4 := by omega
  have hlt : ¬ (encodeFrame g ++ b2).length < encLen g := by omega
  have hcap : ¬ cap < encLen g := not_lt.mpr hwf.1
  rw [processDataBuffer, if_neg h4, hread, if_neg hcap, if_neg hlt, htake,
    hdrop, if_pos (by rw [encodeFrame_length]; exact h6),
    readOpcodeLe_encodeFrame g hwf.2, encodeFrame_drop6]

theorem concatFrames_cons_length (g : Msg) (gs : List Msg) :
    (concatFrames (g :: gs)).length
      = encLen g + (concatFrames gs).length := by
  simp [concatFrames, encodeFrame_length]

theorem processDataBuffer_run (gs : List Msg) :
    ∀ (b t : List Nat) (fuel : Nat),
      (∀ m ∈ gs, WFrame m) →
      b ++ t = concatFrames gs →
      b.length ≤ fuel →
      ∃ j b2,
        processDataBuffer fuel b = (gs.take j, b2) ∧
        b2 ++ t = concatFrames (gs.drop j) ∧
        (b2 = [] ∨ ∃ g gs2, gs.drop j = g :: gs2 ∧ b2.length < encLen g) := by
  induction gs with
  | nil =>
    intro b t fuel _ hbt _
    have hb : b = [] ∧ t = [] := by
      simpa [concatFrames] using hbt
    refine ⟨0, [], ?_, ?_, Or.inl rfl⟩
    · rw [hb.1, processDataBuffer_stall fuel [] (Or.inl (by simp))]
      simp
    · simp [hb.2, concatFrames]
  | cons g gs ih =>
    intro b t fuel hwf hbt hfuel
    have hwfg : WFrame g := hwf g (by simp)
    have h6 : 6 ≤ encLen g := by simp [encLen]
    by_cases hshort : b.length < encLen g
    · -- the buffer stalls: it cannot contain the first frame yet
      have hstall : processDataBuffer fuel b = ([], b) := by
        by_cases h4 : b.length ≤ 4
        · exact processDataBuffer_stall fuel b (Or.inl h4)
        · have hread : readBe32 b = encLen g := by
            rw [← readBe32_append b t (by omega), hbt]
            show readBe32 (encodeFrame g ++ concatFrames gs) = encLen g
            exact readBe32_encodeFrame g _
              (lt_of_le_of_lt hwfg.1 (by norm_num [cap]))
          refine processDataBuffer_stall fuel b (Or.inr ⟨?_, ?_⟩)
          · rw [hread]; exact not_lt.mpr hwfg.1
          · rw [hread]; exact hshort
      refine ⟨0, b, ?_, ?_, Or.inr ⟨g, gs, rfl, hshort⟩⟩
      · simpa using hstall
      · simpa [concatFrames] using hbt
    · -- the buffer contains the whole first frame: consume it and recurse
      push_neg at hshort
      have hxb : (encodeFrame g).length ≤ b.length := by
        rw [encodeFrame_length]; exact hshort
      have hsplit := splitAppend (encodeFrame g) b t (concatFrames gs)
        (by simpa [concatFrames] using hbt) hxb
      set b' := b.drop (encodeFrame g).length with hb'
      obtain ⟨hbeq, hrest⟩ := hsplit
      have hblen : b.length = encLen g + b'.length := by
        rw [hbeq]
        simp [encodeFrame_length]
      obtain ⟨f, rfl⟩ : ∃ f, fuel = f + 1 := ⟨fuel - 1, by omega⟩
      have hb'f : b'.length ≤ f := by omega
      obtain ⟨j2, b2, hrun2, hbt2, hshort2⟩ :=
        ih b' t f (fun m hm => hwf m (by simp [hm])) hrest hb'f
      refine ⟨j2 + 1, b2, ?_, ?_, ?_⟩
      · rw [hbeq, processDataBuffer_cons f g b' hwfg, hrun2]
        simp
      · simpa using hbt2
      · simpa using hshort2

theorem feed_fold (cs : List (List Nat)) :
    ∀ (gs : List Msg) (buf : List Nat) (out : List Msg),
      (∀ m ∈ gs, WFrame m) →
      buf ++ flatChunks cs = concatFrames gs →
      (buf = [] ∨ ∃ g gs2, gs = g :: gs2 ∧ buf.length < encLen g) →
      ∃ j buf2,
        cs.foldl feedChunk (out, buf) = (out ++ gs.take j, buf2) ∧
        buf2 = concatFrames (gs.drop j) ∧
        (buf2 = [] ∨
          ∃ g gs2, gs.drop j = g :: gs2 ∧ buf2.length < encLen g) := by
  induction cs with
  | nil =>
    intro gs buf out _ hbt hshort
    refine ⟨0, buf, by simp, ?_, by simpa using hshort⟩
    simpa [flatChunks] using hbt
  | cons c cs ih =>
    intro gs buf out hwf hbt hshort
    have hbt' : (buf ++ c) ++ flatChunks cs = concatFrames gs := by
      simpa [flatChunks, List.append_assoc] using hbt
    obtain ⟨j1, b2, hrun, hb2, hshort2⟩ :=
      processDataBuffer_run gs (buf ++ c) (flatChunks cs)
        (buf ++ c).length hwf hbt' le_rfl
    have hfeed : feedChunk (out, buf) c = (out ++ gs.take j1, b2) := by
      show (out ++ (processDataBuffer (buf ++ c).length (buf ++ c)).1,
        (processDataBuffer (buf ++ c).length (buf ++ c)).2) = _
      rw [hrun]
    obtain ⟨j2, buf2, hfold, hb3, hshort3⟩ :=
      ih (gs.drop j1) b2 (out ++ gs.take j1)
        (fun m hm => hwf m (List.mem_of_mem_drop hm)) hb2 hshort2
    refine ⟨j1 + j2, buf2, ?_, ?_, ?_⟩
    · rw [List.foldl_cons, hfeed, hfold, List.append_assoc, ← List.take_add]
    · rw [hb3, List.drop_drop]
    · rw [List.drop_drop] at hshort3
      exact hshort3

theorem decodeStream_frames (fs : List Msg) (cs : List (List Nat))
    (hwf : ∀ m ∈ fs, WFrame m)
    (hcs : flatChunks cs = concatFrames fs) :
    decodeStream cs = (fs, []) := by
  obtain ⟨j, buf2, hfold, hb, hshort⟩ :=
    feed_fold cs fs [] [] hwf (by simpa using hcs) (Or.inl rfl)
  have hdrop : fs.drop j = [] := by
    cases hfs : fs.drop j with
    | nil => rfl
    | cons g gs2 =>
      exfalso
      have hlen6 : 6 + (concatFrames gs2).length ≤ buf2.length := by
        rw [hb, hfs, concatFrames_cons_length]
        have : 6 ≤ encLen g := by simp [encLen]
        omega
      rcases hshort with h | ⟨g2, gs3, hg2, hl⟩
      · rw [h] at hlen6
        simp at hlen6
      · rw [hfs] at hg2
        injection hg2 with h1 h2
        subst h1
        have hfull : buf2.length = encLen g + (concatFrames gs2).length := by
          rw [hb, hfs, concatFrames_cons_length]
        omega
  have hj : fs.length ≤ j := List.drop_eq_nil_iff.mp hdrop
  have htake : fs.take j = fs := List.take_of_length_le hj
  have hbuf : buf2 = [] := by
    rw [hb, hdrop]
    rfl
  rw [decodeStream, hfold, htake, hbuf]
  simp

/-- Claim C1: for every byte stream formed by concatenating well-formed
frames (each a big-endian u32 size, a u16 opcode and a body, with
6 ≤ size ≤ 10 MiB), delivered to the stream reassembler in arbitrary chunk
boundaries, the decoder emits exactly the messages of the frames, with the
original opcodes and bodies, and the buffer drains completely. -/
theorem C1_framing_roundtrip (fs : List Msg) (cs : List (List Nat))
    (hwf : ∀ m ∈ fs, WFrame m)
    (hcs : flatChunks cs = concatFrames fs) :
    decodeStream cs = (fs, []) :=
  decodeStream_frames fs cs hwf hcs

/-- Witness for C1: a frame of size 8 with opcode 2 and body [170, 187],
split across two chunks at an arbitrary boundary, decodes back to itself. -/
theorem C1_witness :
    (∀ m ∈ [Msg.mk 2 [170, 187]], WFrame m) ∧
    flatChunks [[0, 0, 0, 8, 2], [0, 170, 187]]
      = concatFrames [Msg.mk 2 [170, 187]] ∧
    decodeStream [[0, 0, 0, 8, 2], [0, 170, 187]]
      = ([Msg.mk 2 [170, 187]], []) :=
  ⟨by decide, by decide,
    C1_framing_roundtrip [Msg.mk 2 [170, 187]] [[0, 0, 0, 8, 2], [0, 170, 187]]
      (by decide) (by decide)⟩

/-- Counterexample to claim C4 as stated: a stream whose first four bytes
encode a size above the 10 MiB cap, followed by a well-formed frame of
opcode 2, delivered in a single chunk, yields no message at all — the
framer clears the whole buffer, including the well-framed remainder, so it
does not emit the remainder's messages. -/
theorem C4_counterexample :
    decodeStream [[255, 255, 255, 255] ++ encodeFrame ⟨2, []⟩] = ([], []) ∧
    ([] : List Msg) ≠ [⟨2, []⟩] := by
  constructor
  · decide
  · decide

/-- Claim C4 (amended): the framer never emits any message derived from the
corrupt leading bytes; and when the corrupt leading segment (more than four
bytes whose leading u32 exceeds the cap) is processed before any remainder
byte arrives, the buffer is cleared and the subsequently delivered
well-framed remainder is decoded exactly.  (As the counterexample shows,
remainder bytes already buffered together with the corrupt segment at the
time of the overflow are discarded with it.) -/
theorem C4_overflow_recovery (bad : List Nat) (fs : List Msg)
    (cs : List (List Nat))
    (hbadlen : 4 < bad.length) (hbad : cap < readBe32 bad)
    (hwf : ∀ m ∈ fs, WFrame m)
    (hcs : flatChunks cs = concatFrames fs) :
    decodeStream (bad :: cs) = (fs, []) := by
  have h1 : feedChunk ([], []) bad = ([], []) := by
    obtain ⟨f, hf⟩ : ∃ f, bad.length = f + 1 := ⟨bad.length - 1, by omega⟩
    simp only [feedChunk, List.nil_append]
    rw [hf, processDataBuffer_overflow f bad (by omega) hbad]
  have h2 : decodeStream (bad :: cs) = cs.foldl feedChunk ([], []) := by
    rw [decodeStream, List.foldl_cons, h1]
  rw [h2]
  exact decodeStream_frames fs cs hwf hcs

/-- Witness for C4 (amended): a five-byte corrupt leading chunk followed by
a well-formed frame of opcode 2 in its own chunk decodes to exactly that
frame. -/
theorem C4_witness :
    4 < [255, 255, 255, 255, 255].length ∧
    cap < readBe32 [255, 255, 255, 255, 255] ∧
    decodeStream [[255, 255, 255, 255, 255], [0, 0, 0, 6, 2, 0]]
      = ([Msg.mk 2 []], []) :=
  ⟨by decide, by decide,
    C4_overflow_recovery [255, 255, 255, 255, 255] [Msg.mk 2 []]
      [[0, 0, 0, 6, 2, 0]] (by decide) (by decide) (by decide) (by decide)⟩

/-! ## Flow-identifier lemmas -/

theorem processServerPacket_mismatched (st : CapState) (pl : List Nat)
    (sq : Nat) : (processServerPacket st pl sq).mismatched = st.mismatched :=
  rfl

theorem processServerPacket_identified (st : CapState) (pl : List Nat)
    (sq : Nat) : (processServerPacket st pl sq).identified = st.identified :=
  rfl

theorem processServerPacket_currentServer (st : CapState) (pl : List Nat)
    (sq : Nat) :
    (processServerPacket st pl sq).currentServer = st.currentServer :=
  rfl

theorem processPacket_nonmatch (st : CapState) (P q : FlowId) (pl : List Nat)
    (sq : Nat) (hid : st.identified = true) (hcur : st.currentServer = some P)
    (hq1 : q ≠ P) (hq2 : q.reverse ≠ P) (hm : st.mismatched + 1 < 5) :
    processPacket st q pl sq = { st with mismatched := st.mismatched + 1 } := by
  have c1 : some P ≠ some q := fun h => hq1 (Option.some.inj h).symm
  have c2 : some P ≠ some q.reverse := fun h => hq2 (Option.some.inj h).symm
  have hmod : (st.mismatched + 1) % U32 = st.mismatched + 1 :=
    Nat.mod_eq_of_lt (lt_trans hm (by norm_num [U32]))
  unfold processPacket
  rw [hcur, hid, if_pos c1, if_neg (by simp), if_pos c2, hmod,
    if_neg (by omega)]

theorem processPacket_trigger (st : CapState) (P q : FlowId) (pl : List Nat)
    (sq : Nat) (hid : st.identified = true) (hcur : st.currentServer = some P)
    (hq1 : q ≠ P) (hq2 : q.reverse ≠ P) (hm : st.mismatched = 4) :
    processPacket st q pl sq
      = resetServerIdentification { st with mismatched := 5 } := by
  have c1 : some P ≠ some q := fun h => hq1 (Option.some.inj h).symm
  have c2 : some P ≠ some q.reverse := fun h => hq2 (Option.some.inj h).symm
  have hmod : (st.mismatched + 1) % U32 = 5 := by
    rw [hm]
    norm_num [U32]
  unfold processPacket
  rw [hcur, hid, if_pos c1, if_neg (by simp), if_pos c2, hmod,
    if_pos (by omega)]

theorem processPacket_reverse_match (st : CapState) (P q : FlowId)
    (pl : List Nat) (sq : Nat) (hid : st.identified = true)
    (hcur : st.currentServer = some P) (hq1 : q ≠ P) (hq2 : q.reverse = P) :
    processPacket st q pl sq
      = processServerPacket { st with mismatched := 0 } pl sq := by
  have c1 : some P ≠ some q := fun h => hq1 (Option.some.inj h).symm
  have c2 : ¬ (st.currentServer ≠ some q.reverse) := by
    rw [hcur, hq2]
    exact fun h => h rfl
  unfold processPacket
  rw [hcur] at c2 ⊢
  rw [if_pos c1, hid, if_neg (by simp), if_neg c2]

theorem processPacket_forward_match (st : CapState) (q : FlowId)
    (pl : List Nat) (sq : Nat) (hcur : st.currentServer = some q) :
    processPacket st q pl sq = processServerPacket st pl sq := by
  unfold processPacket
  rw [hcur, if_neg (fun h => h rfl)]

theorem runPackets_nonmatch (P : FlowId)
    (pkts : List (FlowId × List Nat × Nat)) :
    ∀ st : CapState, st.identified = true → st.currentServer = some P →
      (∀ p ∈ pkts, p.1 ≠ P ∧ p.1.reverse ≠ P) →
      st.mismatched + pkts.length < 5 →
      runPackets st pkts
        = { st with mismatched := st.mismatched + pkts.length } := by
  induction pkts with
  | nil =>
    intro st _ _ _ _
    show st = _
    simp
  | cons p ps ih =>
    intro st hid hcur hnm hm
    have hp := hnm p (by simp)
    have hstep := processPacket_nonmatch st P p.1 p.2.1 p.2.2 hid hcur hp.1
      hp.2 (by simp at hm; omega)
    have h1 : runPackets st (p :: ps)
        = runPackets { st with mismatched := st.mismatched + 1 } ps := by
      rw [runPackets, List.foldl_cons, hstep]
      rfl
    rw [h1, ih { st with mismatched := st.mismatched + 1 } hid hcur
      (fun p2 hp2 => hnm p2 (by simp [hp2]))
      (by show st.mismatched + 1 + ps.length < 5; simp at hm; omega)]
    have harith : st.mismatched + 1 + ps.length
        = st.mismatched + (p :: ps).length := by
      simp
      omega
    rw [harith]

/-- Counterexample to claim C2 as stated: from an identified state with a
zero counter, four packets of a foreign pair followed by one packet exactly
matching the identified pair leave the mismatch counter at 4 (the claim says
a matching packet resets it to 0), and one further foreign packet then
triggers the migration (the claim says the reset means it must not). -/
theorem C2_counterexample :
    (runPackets ceState cePkts5).mismatched = 4 ∧
    (runPackets ceState (cePkts5 ++ [(Q0, [0], 6)])).identified = false := by
  constructor
  · decide
  · decide

/-- Claim C2 (amended): after identification with a zero counter, a run of 4
consecutive packets matching neither the identified pair nor its reverse
leaves the identification state unchanged with the counter at 4; a 5th
contiguous non-matching packet triggers the migration (flag dropped, flow
cleared, counter zeroed); a packet whose pair differs from the identified
pair but equals its reverse resets the counter to 0; a packet exactly equal
to the identified pair leaves the counter unchanged. -/
theorem C2_migration_hysteresis (st : CapState) (P : FlowId)
    (pkts : List (FlowId × List Nat × Nat))
    (hid : st.identified = true) (hcur : st.currentServer = some P)
    (hm : st.mismatched = 0) (hlen : pkts.length = 4)
    (hnm : ∀ p ∈ pkts, p.1 ≠ P ∧ p.1.reverse ≠ P)
    (q r f : FlowId × List Nat × Nat)
    (hq1 : q.1 ≠ P) (hq2 : q.1.reverse ≠ P)
    (hr1 : r.1 ≠ P) (hr2 : r.1.reverse = P)
    (hf : f.1 = P) :
    ((runPackets st pkts).identified = true ∧
      (runPackets st pkts).currentServer = some P ∧
      (runPackets st pkts).mismatched = 4) ∧
    ((processPacket (runPackets st pkts) q.1 q.2.1 q.2.2).identified = false ∧
      (processPacket (runPackets st pkts) q.1 q.2.1 q.2.2).currentServer
        = none ∧
      (processPacket (runPackets st pkts) q.1 q.2.1 q.2.2).mismatched = 0) ∧
    (processPacket (runPackets st pkts) r.1 r.2.1 r.2.2).mismatched = 0 ∧
    (processPacket (runPackets st pkts) f.1 f.2.1 f.2.2).mismatched = 4 := by
  have hrun := runPackets_nonmatch P pkts st hid hcur hnm (by omega)
  have h4 : (runPackets st pkts).mismatched = 4 := by
    rw [hrun]
    show st.mismatched + pkts.length = 4
    omega
  have hid4 : (runPackets st pkts).identified = true := by
    rw [hrun]
    exact hid
  have hcur4 : (runPackets st pkts).currentServer = some P := by
    rw [hrun]
    exact hcur
  refine ⟨⟨hid4, hcur4, h4⟩, ?_, ?_, ?_⟩
  · rw [processPacket_trigger (runPackets st pkts) P q.1 q.2.1 q.2.2 hid4
      hcur4 hq1 hq2 h4]
    exact ⟨rfl, rfl, rfl⟩
  · rw [processPacket_reverse_match (runPackets st pkts) P r.1 r.2.1 r.2.2
      hid4 hcur4 hr1 hr2]
    rfl
  · have hcurf : (runPackets st pkts).currentServer = some f.1 := by
      rw [hf]
      exact hcur4
    rw [processPacket_forward_match (runPackets st pkts) f.1 f.2.1 f.2.2 hcurf,
      processServerPacket_mismatched]
    exact h4

/-- Witness for C2 (amended) at concrete packets. -/
theorem C2_witness :
    (ceState.identified = true ∧ ceState.currentServer = some P0 ∧
      ceState.mismatched = 0) ∧
    ((runPackets ceState [(Q0, [0], 1), (Q0, [0], 2), (Q0, [0], 3),
        (Q0, [0], 4)]).mismatched = 4 ∧
      (processPacket (runPackets ceState [(Q0, [0], 1), (Q0, [0], 2),
        (Q0, [0], 3), (Q0, [0], 4)]) Q0 [0] 5).identified = false ∧
      (processPacket (runPackets ceState [(Q0, [0], 1), (Q0, [0], 2),
        (Q0, [0], 3), (Q0, [0], 4)]) P0.reverse [0] 5).mismatched = 0 ∧
      (processPacket (runPackets ceState [(Q0, [0], 1), (Q0, [0], 2),
        (Q0, [0], 3), (Q0, [0], 4)]) P0 [0] 5).mismatched = 4) := by
  have h := C2_migration_hysteresis ceState P0
    [(Q0, [0], 1), (Q0, [0], 2), (Q0, [0], 3), (Q0, [0], 4)]
    rfl rfl rfl rfl (by decide)
    (Q0, [0], 5) (P0.reverse, [0], 5) (P0, [0], 5)
    (by decide) (by decide) (by decide) (by decide) rfl
  exact ⟨⟨rfl, rfl, rfl⟩, h.1.2.2, h.2.1.1, h.2.2.1, h.2.2.2⟩

/-- Claim C3: when the five-packet migration threshold is reached, the code
does reset the identified flag, clear the recorded server flow, zero the
mismatch counter, clear the TCP segment cache and reset the next-sequence
marker — but it leaves the assembled stream data buffer untouched and never
clears the aggregate store, even though autoClearOnServerChange is true:
clear_data_on_server_change (capture.rs 375-377) has an empty body and the
setting is read nowhere in the capture path.  The store still differs from
its cleared form afterwards. -/
theorem C3_migration_no_clear :
    (runPackets c3State c3Pkts).identified = false ∧
    (runPackets c3State c3Pkts).currentServer = none ∧
    (runPackets c3State c3Pkts).mismatched = 0 ∧
    (runPackets c3State c3Pkts).tcpCache = [] ∧
    (runPackets c3State c3Pkts).tcpNextSeq = -1 ∧
    (runPackets c3State c3Pkts).dataBuffer = [9, 9, 9] ∧
    (runPackets c3State c3Pkts).store = storeWithData ∧
    storeWithData.settings.autoClearOnServerChange = true ∧
    (runPackets c3State c3Pkts).store.snapshotUsers
      ≠ ((runPackets c3State c3Pkts).store.clearAll 20).snapshotUsers := by
  refine ⟨?_, ?_, ?_, ?_, ?_, ?_, ?_, ?_, ?_⟩ <;> decide

/-! ## Store lemmas -/

theorem addDamage_damageStats (u : User) (now skillId : Nat) (e : String)
    (v : Nat) (c l cl : Bool) (hpl : Nat) :
    (u.addDamage now skillId e v c l cl hpl).damageStats =
      { totalDamage := (u.damageStats.totalDamage + v) % U64
        normalDamage :=
          if !c && !l then (u.damageStats.normalDamage + v) % U64
          else u.damageStats.normalDamage
        criticalDamage :=
          if c && !l then (u.damageStats.criticalDamage + v) % U64
          else u.damageStats.criticalDamage
        luckyDamage :=
          if !c && l then (u.damageStats.luckyDamage + v) % U64
          else u.damageStats.luckyDamage
        critLuckyDamage :=
          if c && l then (u.damageStats.critLuckyDamage + v) % U64
          else u.damageStats.critLuckyDamage
        hpLessen := (u.damageStats.hpLessen + hpl) % U64
        normalCount :=
          if !c && !l then (u.damageStats.normalCount + 1) % U32
          else u.damageStats.normalCount
        criticalCount :=
          if c then (u.damageStats.criticalCount + 1) % U32
          else u.damageStats.criticalCount
        luckyCount :=
          if l then (u.damageStats.luckyCount + 1) % U32
          else u.damageStats.luckyCount
        totalCount := (u.damageStats.totalCount + 1) % U32
        timeRange :=
          match u.damageStats.timeRange with
          | some (start, _) => some (start, now)
          | none => some (now, now) } := by
  cases c <;> cases l <;> simp [User.addDamage]

theorem applyDamageCalls_cons (u : User) (c : DmgCall) (cs : List DmgCall) :
    applyDamageCalls u (c :: cs)
      = applyDamageCalls
          (u.addDamage c.now c.skillId c.element c.damage c.isCrit c.isLucky
            c.isCauseLucky c.hpLessen) cs :=
  rfl

theorem callsSum_cons (c : DmgCall) (cs : List DmgCall) :
    callsSum (c :: cs) = c.damage + callsSum cs := by
  simp [callsSum]

theorem applyDamageCalls_sum (cs : List DmgCall) :
    ∀ u : User,
      u.damageStats.totalDamage = sumBuckets u.damageStats →
      sumBuckets u.damageStats + callsSum cs < U64 →
      (applyDamageCalls u cs).damageStats.totalDamage
          = sumBuckets (applyDamageCalls u cs).damageStats ∧
        sumBuckets (applyDamageCalls u cs).damageStats
          = sumBuckets u.damageStats + callsSum cs := by
  induction cs with
  | nil =>
    intro u h _
    exact ⟨h, by simp [applyDamageCalls, callsSum]⟩
  | cons c cs ih =>
    intro u h hlt
    rw [callsSum_cons] at hlt
    have hstep := addDamage_damageStats u c.now c.skillId c.element c.damage
      c.isCrit c.isLucky c.isCauseLucky c.hpLessen
    have hb : sumBuckets u.damageStats + c.damage < U64 := by omega
    have ht : u.damageStats.totalDamage + c.damage < U64 := by omega
    have hsum2 :
        sumBuckets (u.addDamage c.now c.skillId c.element c.damage c.isCrit
            c.isLucky c.isCauseLucky c.hpLessen).damageStats
          = sumBuckets u.damageStats + c.damage := by
      unfold sumBuckets at hb
      have hm1 : (u.damageStats.normalDamage + c.damage) % U64
          = u.damageStats.normalDamage + c.damage :=
        Nat.mod_eq_of_lt (by omega)
      have hm2 : (u.damageStats.criticalDamage + c.damage) % U64
          = u.damageStats.criticalDamage + c.damage :=
        Nat.mod_eq_of_lt (by omega)
      have hm3 : (u.damageStats.luckyDamage + c.damage) % U64
          = u.damageStats.luckyDamage + c.damage :=
        Nat.mod_eq_of_lt (by omega)
      have hm4 : (u.damageStats.critLuckyDamage + c.damage) % U64
          = u.damageStats.critLuckyDamage + c.damage :=
        Nat.mod_eq_of_lt (by omega)
      rw [hstep]
      unfold sumBuckets
      cases hc : c.isCrit <;> cases hl : c.isLucky <;>
        simp [hm1, hm2, hm3, hm4] <;> omega
    have htot2 :
        (u.addDamage c.now c.skillId c.element c.damage c.isCrit c.isLucky
            c.isCauseLucky c.hpLessen).damageStats.totalDamage
          = sumBuckets u.damageStats + c.damage := by
      rw [hstep]
      show (u.damageStats.totalDamage + c.damage) % U64 = _
      rw [h] at ht ⊢
      exact Nat.mod_eq_of_lt ht
    rw [applyDamageCalls_cons]
    have := ih _ (by rw [htot2, hsum2]) (by rw [hsum2]; omega)
    refine ⟨this.1, ?_⟩
    rw [this.2, hsum2, callsSum_cons]
    omega

theorem addDamage_counts (u : User) (now skillId : Nat) (e : String)
    (v : Nat) (c l cl : Bool) (hpl : Nat) :
    (u.addDamage now skillId e v c l cl hpl).damageStats.totalCount
        = (u.damageStats.totalCount + 1) % U32 ∧
      (u.addDamage now skillId e v c l cl hpl).damageStats.criticalCount
        = (if c then (u.damageStats.criticalCount + 1) % U32
           else u.damageStats.criticalCount) ∧
      (u.addDamage now skillId e v c l cl hpl).damageStats.luckyCount
        = (if l then (u.damageStats.luckyCount + 1) % U32
           else u.damageStats.luckyCount) ∧
      (u.addDamage now skillId e v c l cl hpl).damageStats.normalCount
        = (if !c && !l then (u.damageStats.normalCount + 1) % U32
           else u.damageStats.normalCount) := by
  rw [addDamage_damageStats]
  exact ⟨rfl, rfl, rfl, rfl⟩

theorem applyDamageCalls_counts (cs : List DmgCall) :
    ∀ u : User,
      u.damageStats.totalCount + cs.length < U32 →
      u.damageStats.normalCount ≤ u.damageStats.totalCount →
      u.damageStats.criticalCount ≤ u.damageStats.totalCount →
      u.damageStats.luckyCount ≤ u.damageStats.totalCount →
      (applyDamageCalls u cs).damageStats.totalCount
          = u.damageStats.totalCount + cs.length ∧
        (applyDamageCalls u cs).damageStats.normalCount
          = u.damageStats.normalCount + countNeither cs ∧
        (applyDamageCalls u cs).damageStats.criticalCount
          = u.damageStats.criticalCount + countCrit cs ∧
        (applyDamageCalls u cs).damageStats.luckyCount
          = u.damageStats.luckyCount + countLucky cs := by
  induction cs with
  | nil =>
    intro u _ _ _ _
    simp [applyDamageCalls, countNeither, countCrit, countLucky]
  | cons c cs ih =>
    intro u hlen hn hc hl
    simp only [List.length_cons] at hlen
    obtain ⟨e1, e2, e3, e4⟩ := addDamage_counts u c.now c.skillId c.element
      c.damage c.isCrit c.isLucky c.isCauseLucky c.hpLessen
    set u2 := u.addDamage c.now c.skillId c.element c.damage c.isCrit
      c.isLucky c.isCauseLucky c.hpLessen with hu2
    have m1 : (u.damageStats.totalCount + 1) % U32
        = u.damageStats.totalCount + 1 := Nat.mod_eq_of_lt (by omega)
    have m2 : (u.damageStats.criticalCount + 1) % U32
        = u.damageStats.criticalCount + 1 := Nat.mod_eq_of_lt (by omega)
    have m3 : (u.damageStats.luckyCount + 1) % U32
        = u.damageStats.luckyCount + 1 := Nat.mod_eq_of_lt (by omega)
    have m4 : (u.damageStats.normalCount + 1) % U32
        = u.damageStats.normalCount + 1 := Nat.mod_eq_of_lt (by omega)
    have e1' : u2.damageStats.totalCount = u.damageStats.totalCount + 1 := by
      rw [e1, m1]
    have e2' : u2.damageStats.criticalCount
        = u.damageStats.criticalCount + (if c.isCrit then 1 else 0) := by
      rw [e2]
      cases c.isCrit <;> simp [m2]
    have e3' : u2.damageStats.luckyCount
        = u.damageStats.luckyCount + (if c.isLucky then 1 else 0) := by
      rw [e3]
      cases c.isLucky <;> simp [m3]
    have e4' : u2.damageStats.normalCount
        = u.damageStats.normalCount
          + (if !c.isCrit && !c.isLucky then 1 else 0) := by
      rw [e4]
      cases hcc : c.isCrit <;> cases hll : c.isLucky <;> simp [m4]
    obtain ⟨r1, r2, r3, r4⟩ := ih u2
      (by rw [e1']; omega)
      (by rw [e4', e1']; split <;> omega)
      (by rw [e2', e1']; split <;> omega)
      (by rw [e3', e1']; split <;> omega)
    rw [applyDamageCalls_cons, ← hu2]
    refine ⟨?_, ?_, ?_, ?_⟩
    · rw [r1, e1']
      simp only [List.length_cons]
      omega
    · rw [r2, e4']
      simp only [countNeither, List.countP_cons]
      cases c.isCrit <;> cases c.isLucky <;> simp <;> omega
    · rw [r3, e2']
      simp only [countCrit, List.countP_cons]
      cases c.isCrit <;> simp <;> omega
    · rw [r4, e3']
      simp only [countLucky, List.countP_cons]
      cases c.isLucky <;> simp <;> omega

theorem count_partition (cs : List DmgCall) :
    cs.length + countBoth cs
      = countNeither cs + countCrit cs + countLucky cs := by
  induction cs with
  | nil => rfl
  | cons c cs ih =>
    simp only [List.length_cons, countBoth, countNeither, countCrit,
      countLucky, List.countP_cons] at ih ⊢
    cases c.isCrit <;> cases c.isLucky <;> simp <;> omega

theorem alookup_mapval {α : Type} (g : α → α) (k : Nat)
    (l : List (Nat × α)) :
    alookup k (l.map (fun p => (p.1, g p.2))) = (alookup k l).map g := by
  induction l with
  | nil => rfl
  | cons p l ih =>
    by_cases h : k = p.1 <;> simp [alookup, h, ih]

/-! ## Claims C5 to C10 -/

/-- Claim C5: contrary to the claim, the FrameDown arm of
PacketParser::process_packet fails on every FrameDown input: read_remaining
has already moved the reader position to the end of the data, so the
subsequent read_u32_be of the server sequence id slices past the end of the
buffer and panics, for any decompressor and any recursion fuel; there is
also no depth-8 bound anywhere in the source.  Evaluated here at a concrete
twelve-byte FrameDown frame. -/
theorem C5_framedown_fails (zstd : List Nat → Option (List Nat)) (fuel : Nat) :
    processPacketEnvelope zstd fuel frameDownInput = .error () := by
  rw [processPacketEnvelope]
  norm_num [frameDownInput, readU16BeAt4]

/-- Counterexample to claim C6 as stated: with the store paused, the
set_user_name mutator still changes the user snapshot — the setters carry no
pause check in the source. -/
theorem C6_counterexample :
    pausedStore.isPaused = true ∧
    (pausedStore.setUserName 1 7 "Alice").snapshotUsers
      ≠ pausedStore.snapshotUsers := by
  constructor
  · rfl
  · decide

/-- Claim C6 (amended): while the store is paused, the damage, healing and
taken-damage recording operations are no-ops that return the store
unchanged; the attribute, name, profession, fight-point and enemy setters
are not gated on pause (as the counterexample shows). -/
theorem C6_pause_blocks_recording (s : Store) (h : s.isPaused = true)
    (now uid skillId : Nat) (element : String) (v : Nat)
    (c l cl dead : Bool) (hpLessen targetUid damage : Nat) :
    s.addDamage now uid skillId element v c l cl hpLessen targetUid = s ∧
    s.addHealing now uid skillId element v c l cl = s ∧
    s.addTakenDamage now uid damage dead = s := by
  refine ⟨?_, ?_, ?_⟩ <;> · simp only [Store.addDamage, Store.addHealing,
    Store.addTakenDamage, h, if_true]

/-- Witness for C6 (amended) at a concrete paused store. -/
theorem C6_witness :
    pausedStore.isPaused = true ∧
    pausedStore.addDamage 3 7 1241 "fire" 50 true false false 10 64
        = pausedStore ∧
    pausedStore.addHealing 3 7 20301 "wood" 50 true false false
        = pausedStore ∧
    pausedStore.addTakenDamage 3 7 50 true = pausedStore := by
  have h := C6_pause_blocks_recording pausedStore rfl 3 7 1241 "fire" 50
    true false false true 10 64 50
  have h2 := C6_pause_blocks_recording pausedStore rfl 3 7 20301 "wood" 50
    true false false true 10 64 50
  exact ⟨rfl, h.1, h2.2.1, h.2.2⟩

/-- Claim C7: each add_damage call increments exactly one of the four damage
value buckets, by the recorded value (modulo the u64 width, which the source
fields carry), and leaves the other three unchanged; consequently, starting
from a player whose damage statistics are zeroed (a fresh or reset record),
as long as the accumulated value total fits in a u64, total_damage equals
the sum of the four buckets, which also equals the total recorded value. -/
theorem C7_damage_buckets (u : User) (c : DmgCall) (u0 : User)
    (cs : List DmgCall) (h0 : u0.damageStats = DamageStats.zero)
    (hsum : callsSum cs < U64) :
    ((c.isCrit = true → c.isLucky = true →
      (u.addDamage c.now c.skillId c.element c.damage c.isCrit c.isLucky
          c.isCauseLucky c.hpLessen).damageStats.critLuckyDamage
        = (u.damageStats.critLuckyDamage + c.damage) % U64 ∧
      (u.addDamage c.now c.skillId c.element c.damage c.isCrit c.isLucky
          c.isCauseLucky c.hpLessen).damageStats.normalDamage
        = u.damageStats.normalDamage ∧
      (u.addDamage c.now c.skillId c.element c.damage c.isCrit c.isLucky
          c.isCauseLucky c.hpLessen).damageStats.criticalDamage
        = u.damageStats.criticalDamage ∧
      (u.addDamage c.now c.skillId c.element c.damage c.isCrit c.isLucky
          c.isCauseLucky c.hpLessen).damageStats.luckyDamage
        = u.damageStats.luckyDamage) ∧
    (c.isCrit = true → c.isLucky = false →
      (u.addDamage c.now c.skillId c.element c.damage c.isCrit c.isLucky
          c.isCauseLucky c.hpLessen).damageStats.criticalDamage
        = (u.damageStats.criticalDamage + c.damage) % U64 ∧
      (u.addDamage c.now c.skillId c.element c.damage c.isCrit c.isLucky
          c.isCauseLucky c.hpLessen).damageStats.normalDamage
        = u.damageStats.normalDamage ∧
      (u.addDamage c.now c.skillId c.element c.damage c.isCrit c.isLucky
          c.isCauseLucky c.hpLessen).damageStats.luckyDamage
        = u.damageStats.luckyDamage ∧
      (u.addDamage c.now c.skillId c.element c.damage c.isCrit c.isLucky
          c.isCauseLucky c.hpLessen).damageStats.critLuckyDamage
        = u.damageStats.critLuckyDamage) ∧
    (c.isCrit = false → c.isLucky = true →
      (u.addDamage c.now c.skillId c.element c.damage c.isCrit c.isLucky
          c.isCauseLucky c.hpLessen).damageStats.luckyDamage
        = (u.damageStats.luckyDamage + c.damage) % U64 ∧
      (u.addDamage c.now c.skillId c.element c.damage c.isCrit c.isLucky
          c.isCauseLucky c.hpLessen).damageStats.normalDamage
        = u.damageStats.normalDamage ∧
      (u.addDamage c.now c.skillId c.element c.damage c.isCrit c.isLucky
          c.isCauseLucky c.hpLessen).damageStats.criticalDamage
        = u.damageStats.criticalDamage ∧
      (u.addDamage c.now c.skillId c.element c.damage c.isCrit c.isLucky
          c.isCauseLucky c.hpLessen).damageStats.critLuckyDamage
        = u.damageStats.critLuckyDamage) ∧
    (c.isCrit = false → c.isLucky = false →
      (u.addDamage c.now c.skillId c.element c.damage c.isCrit c.isLucky
          c.isCauseLucky c.hpLessen).damageStats.normalDamage
        = (u.damageStats.normalDamage + c.damage) % U64 ∧
      (u.addDamage c.now c.skillId c.element c.damage c.isCrit c.isLucky
          c.isCauseLucky c.hpLessen).damageStats.criticalDamage
        = u.damageStats.criticalDamage ∧
      (u.addDamage c.now c.skillId c.element c.damage c.isCrit c.isLucky
          c.isCauseLucky c.hpLessen).damageStats.luckyDamage
        = u.damageStats.luckyDamage ∧
      (u.addDamage c.now c.skillId c.element c.damage c.isCrit c.isLucky
          c.isCauseLucky c.hpLessen).damageStats.critLuckyDamage
        = u.damageStats.critLuckyDamage) ∧
    (u.addDamage c.now c.skillId c.element c.damage c.isCrit c.isLucky
        c.isCauseLucky c.hpLessen).damageStats.totalDamage
      = (u.damageStats.totalDamage + c.damage) % U64) ∧
    ((applyDamageCalls u0 cs).damageStats.totalDamage
        = sumBuckets (applyDamageCalls u0 cs).damageStats ∧
      (applyDamageCalls u0 cs).damageStats.totalDamage = callsSum cs) := by
  have hstep := addDamage_damageStats u c.now c.skillId c.element c.damage
    c.isCrit c.isLucky c.isCauseLucky c.hpLessen
  constructor
  · refine ⟨?_, ?_, ?_, ?_, ?_⟩
    · intro hc hl
      rw [hstep, hc, hl]
      exact ⟨rfl, by simp, by simp, by simp⟩
    · intro hc hl
      rw [hstep, hc, hl]
      exact ⟨by simp, by simp, by simp, by simp⟩
    · intro hc hl
      rw [hstep, hc, hl]
      exact ⟨by simp, by simp, by simp, by simp⟩
    · intro hc hl
      rw [hstep, hc, hl]
      exact ⟨by simp, by simp, by simp, by simp⟩
    · rw [hstep]
  · have hz : sumBuckets u0.damageStats = 0 := by
      rw [h0]
      rfl
    have htz : u0.damageStats.totalDamage = 0 := by
      rw [h0]
      rfl
    obtain ⟨a, b⟩ := applyDamageCalls_sum cs u0 (by rw [hz, htz])
      (by rw [hz]; omega)
    exact ⟨a, by rw [a, b, hz]; omega⟩

/-- Witness for C7 at a crit-and-lucky call and a two-call sequence from a
fresh player. -/
theorem C7_witness :
    ((User.new 0 2).damageStats = DamageStats.zero ∧
      callsSum [bothCall, { bothCall with isCrit := false, damage := 7 }]
        < U64) ∧
    ((applyDamageCalls (User.new 0 2)
        [bothCall, { bothCall with isCrit := false, damage := 7 }]
        ).damageStats.totalDamage
      = sumBuckets (applyDamageCalls (User.new 0 2)
        [bothCall, { bothCall with isCrit := false, damage := 7 }]
        ).damageStats) := by
  refine ⟨⟨rfl, by decide⟩, ?_⟩
  exact (C7_damage_buckets (User.new 0 1) bothCall (User.new 0 2)
    [bothCall, { bothCall with isCrit := false, damage := 7 }]
    rfl (by decide)).2.1

/-- Counterexample to claim C8 as stated: one hit that is both critical and
lucky gives a total count of 1, while the three stored count buckets sum to
2 — the critical and lucky buckets each count the hit and there is no
crit-lucky count bucket to correct for it. -/
theorem C8_counterexample :
    (applyDamageCalls (User.new 0 1) [bothCall]).damageStats.totalCount = 1 ∧
    (applyDamageCalls (User.new 0 1) [bothCall]).damageStats.normalCount
        + (applyDamageCalls (User.new 0 1) [bothCall]).damageStats.criticalCount
        + (applyDamageCalls (User.new 0 1) [bothCall]).damageStats.luckyCount
      = 2 := by
  constructor
  · decide
  · decide

/-- Claim C8 (amended): after any sequence of fewer than 2^32 add_damage
calls from a player with zeroed statistics, the total hit count plus the
number of hits that were both critical and lucky equals the sum of the
normal, critical and lucky count buckets; in particular the total equals the
plain sum whenever no hit is both critical and lucky. -/
theorem C8_count_sum (u0 : User) (cs : List DmgCall)
    (h0 : u0.damageStats = DamageStats.zero) (hlen : cs.length < U32) :
    ((applyDamageCalls u0 cs).damageStats.totalCount + countBoth cs
      = (applyDamageCalls u0 cs).damageStats.normalCount
        + (applyDamageCalls u0 cs).damageStats.criticalCount
        + (applyDamageCalls u0 cs).damageStats.luckyCount) ∧
    (countBoth cs = 0 →
      (applyDamageCalls u0 cs).damageStats.totalCount
        = (applyDamageCalls u0 cs).damageStats.normalCount
          + (applyDamageCalls u0 cs).damageStats.criticalCount
          + (applyDamageCalls u0 cs).damageStats.luckyCount) := by
  obtain ⟨r1, r2, r3, r4⟩ := applyDamageCalls_counts cs u0
    (by rw [h0]; show 0 + cs.length < U32; omega)
    (by rw [h0]; exact le_rfl) (by rw [h0]; exact le_rfl)
    (by rw [h0]; exact le_rfl)
  have hz : u0.damageStats.totalCount = 0 := by rw [h0]; rfl
  have hzn : u0.damageStats.normalCount = 0 := by rw [h0]; rfl
  have hzc : u0.damageStats.criticalCount = 0 := by rw [h0]; rfl
  have hzl : u0.damageStats.luckyCount = 0 := by rw [h0]; rfl
  rw [hz] at r1
  rw [hzn] at r2
  rw [hzc] at r3
  rw [hzl] at r4
  have hpart := count_partition cs
  constructor
  · rw [r1, r2, r3, r4]
    omega
  · intro hb
    rw [r1, r2, r3, r4]
    omega

/-- Witness for C8 (amended) at a three-call sequence containing a
crit-and-lucky hit. -/
theorem C8_witness :
    ((User.new 0 1).damageStats = DamageStats.zero ∧
      ([bothCall, { bothCall with isLucky := false },
        { bothCall with isCrit := false, isLucky := false }] :
          List DmgCall).length < U32) ∧
    (applyDamageCalls (User.new 0 1)
        [bothCall, { bothCall with isLucky := false },
          { bothCall with isCrit := false, isLucky := false }]
        ).damageStats.totalCount
      + countBoth [bothCall, { bothCall with isLucky := false },
          { bothCall with isCrit := false, isLucky := false }]
      = (applyDamageCalls (User.new 0 1)
          [bothCall, { bothCall with isLucky := false },
            { bothCall with isCrit := false, isLucky := false }]
          ).damageStats.normalCount
        + (applyDamageCalls (User.new 0 1)
            [bothCall, { bothCall with isLucky := false },
              { bothCall with isCrit := false, isLucky := false }]
            ).damageStats.criticalCount
        + (applyDamageCalls (User.new 0 1)
            [bothCall, { bothCall with isLucky := false },
              { bothCall with isCrit := false, isLucky := false }]
            ).damageStats.luckyCount := by
  refine ⟨⟨rfl, by decide⟩, ?_⟩
  exact (C8_count_sum (User.new 0 1)
    [bothCall, { bothCall with isLucky := false },
      { bothCall with isCrit := false, isLucky := false }]
    rfl (by decide)).1

/-- Counterexample to claim C9 as stated: an enemy record present before
clear_all is gone afterwards — the enemies map is emptied, so enemy records
do not survive a clear. -/
theorem C9_counterexample :
    alookup 5 enemyStore.enemies = some (Enemy.new 0 5) ∧
    alookup 5 ((enemyStore.clearAll 9).enemies) = none := by
  constructor
  · rfl
  · rfl

/-- Claim C9 (amended): player records are never removed by clear_all — each
survives with uid, name and profession intact while its damage, healing,
taken damage, skill usage and fight point are zeroed — but the enemies map
is emptied, so enemy records do not survive the clear. -/
theorem C9_clear_preserves_players (s : Store) (now uid : Nat) (u : User)
    (h : alookup uid s.users = some u) :
    alookup uid (s.clearAll now).users = some (u.reset now) ∧
    (u.reset now).uid = u.uid ∧ (u.reset now).name = u.name ∧
    (u.reset now).profession = u.profession ∧
    (u.reset now).damageStats = DamageStats.zero ∧
    (u.reset now).healingStats = HealingStats.zero ∧
    (u.reset now).takenDamage = 0 ∧ (u.reset now).skillUsage = [] ∧
    (u.reset now).fightPoint = 0 ∧
    (s.clearAll now).enemies = [] := by
  refine ⟨?_, rfl, rfl, rfl, rfl, rfl, rfl, rfl, rfl, rfl⟩
  show alookup uid (s.users.map (fun p => (p.1, p.2.reset now))) = _
  have hmap := alookup_mapval (fun x => User.reset x now) uid s.users
  rw [h] at hmap
  simpa using hmap

/-- Witness for C9 (amended) at a concrete store holding one player. -/
theorem C9_witness :
    alookup 7 pausedStore.users = some (User.new 0 7) ∧
    alookup 7 ((pausedStore.clearAll 3).users)
      = some ((User.new 0 7).reset 3) ∧
    (pausedStore.clearAll 3).enemies = [] := by
  have h := C9_clear_preserves_players pausedStore 3 7 (User.new 0 7) rfl
  exact ⟨rfl, h.1, h.2.2.2.2.2.2.2.2.2⟩

/-- Claim C10: clear_all leaves each player's dead_count — and hp, max_hp
and level — unchanged, while zeroing damage, healing, taken damage, skill
usage and fight point; the preserved dead count is also what the snapshot
reports after the clear. -/
theorem C10_clear_keeps_deadcount (s : Store) (now uid : Nat) (u : User)
    (h : alookup uid s.users = some u) :
    ∃ u2, alookup uid (s.clearAll now).users = some u2 ∧
      u2.deadCount = u.deadCount ∧ u2.hp = u.hp ∧ u2.maxHp = u.maxHp ∧
      u2.level = u.level ∧ u2.view.deadCount = u.view.deadCount ∧
      u2.damageStats = DamageStats.zero ∧
      u2.healingStats = HealingStats.zero ∧ u2.takenDamage = 0 ∧
      u2.skillUsage = [] ∧ u2.fightPoint = 0 := by
  refine ⟨u.reset now, ?_, rfl, rfl, rfl, rfl, rfl, rfl, rfl, rfl, rfl, rfl⟩
  show alookup uid (s.users.map (fun p => (p.1, p.2.reset now))) = _
  have hmap := alookup_mapval (fun x => User.reset x now) uid s.users
  rw [h] at hmap
  simpa using hmap

/-- Witness for C10 at a concrete store holding one player with a nonzero
dead count. -/
theorem C10_witness :
    alookup 8 [(8, (User.new 0 8).addTakenDamage 40 true)]
      = some ((User.new 0 8).addTakenDamage 40 true) ∧
    (∃ u2, alookup 8
        (({ users := [(8, (User.new 0 8).addTakenDamage 40 true)],
            enemies := [], settings := testSettings, isPaused := false,
            lastLogTime := 0 : Store }.clearAll 9).users) = some u2 ∧
      u2.deadCount = ((User.new 0 8).addTakenDamage 40 true).deadCount) := by
  refine ⟨rfl, ?_⟩
  obtain ⟨u2, h1, h2, _⟩ := C10_clear_keeps_deadcount
    { users := [(8, (User.new 0 8).addTakenDamage 40 true)], enemies := [],
      settings := testSettings, isPaused := false, lastLogTime := 0 } 9 8
    ((User.new 0 8).addTakenDamage 40 true) rfl
  exact ⟨u2, h1, h2⟩

end RenLogs
